import Mathlib

/-!
Verification of the cargo-single-pyo3 tool (src/main.rs): a shallow
embedding of the directive parser (`collect_deps`), the workspace
materializer (`create_dir`), and the build/copy tail of `run`, together
with proofs of the specified properties.

Strings are modelled by Lean `String` (a wrapper around `List Char`),
files by an association list from path strings to contents, and fallible
operations by `Except`/`Option`.
-/

namespace SinglePyo3

/-! ## Directive parser (`collect_deps`, src/main.rs lines 39-52) -/

/-- Splits a character sequence at newline characters, keeping empty
segments; models the segmentation underlying Rust's `str::lines`. -/
def splitNewlines : List Char → List (List Char)
  | [] => [[]]
  | c :: cs =>
    if c = '\n' then [] :: splitNewlines cs
    else
      match splitNewlines cs with
      | [] => [[c]]
      | l :: ls => (c :: l) :: ls

/-- Removes a single trailing carriage return, as Rust's `str::lines` does
on each line. -/
def stripCR (l : List Char) : List Char :=
  if l.getLast? = some '\r' then l.dropLast else l

/-- Models Rust's `str::lines`: split on newline characters, drop the empty
segment produced by a trailing newline, strip one trailing carriage return
from each line. -/
def rustLines (s : List Char) : List (List Char) :=
  let parts := splitNewlines s
  (if parts.getLast? = some [] then parts.dropLast else parts).map stripCR

/-- Models `line.starts_with("// ")` on a line's characters. -/
def isDirective : List Char → Bool
  | '/' :: '/' :: ' ' :: _ => true
  | _ => false

/-- The loop of `collect_deps`: collect lines while they start with the
directive marker, `break` at the first line that does not; each collected
line is kept with its first three characters removed
(`line.chars().skip(3)`). -/
def collectDepsLines : List (List Char) → List (List Char)
  | [] => []
  | l :: ls => if isDirective l then l.drop 3 :: collectDepsLines ls else []

/-- `collect_deps` (src/main.rs lines 39-52) on the decoded text of the
input file. -/
def collect_deps (src : String) : List String :=
  (collectDepsLines (rustLines src.data)).map (fun cs => String.mk cs)

/-! ## Project identity (src/main.rs lines 143-148) -/

/-- `crate_name.replace('-', "_")` (src/main.rs line 148): every hyphen
becomes an underscore, all other characters are kept. -/
def module_name_of (crate_name : String) : String :=
  String.mk (crate_name.data.map (fun c => if c = '-' then '_' else c))

/-! ## Manifest model (src/main.rs lines 10-37 and 54-102) -/

/-- `CargoPackage` (src/main.rs lines 17-22). -/
structure CargoPackage where
  name : String
  version : String
  edition : String
deriving DecidableEq, Repr

/-- `CargoLib` (src/main.rs lines 24-29). -/
structure CargoLib where
  name : String
  crate_type : List String
deriving DecidableEq, Repr

/-- `CargoDependency` (src/main.rs lines 31-37). -/
structure CargoDependency where
  version : String
  features : List String
  git : Option String
  branch : Option String
deriving DecidableEq, Repr

/-- `CargoConfig` (src/main.rs lines 10-15); the dependency map is an
association list since only the key `"pyo3"` is ever inserted. -/
structure CargoConfig where
  package : CargoPackage
  lib : CargoLib
  dependencies : List (String × CargoDependency)
deriving DecidableEq, Repr

/-- The managed pyo3 dependency entry (src/main.rs lines 62-81): when the
selector is `"github"` use a wildcard version with the fixed repository and
branch, otherwise use the selector as the version with no source-control
fields. -/
def pyo3Dependency (pyo3_version : String) : CargoDependency :=
  let vgb : String × Option String × Option String :=
    if pyo3_version = "github" then
      ("*", some "https://github.com/PyO3/pyo3", some "main")
    else
      (pyo3_version, none, none)
  { version := vgb.1
    features := ["extension-module"]
    git := vgb.2.1
    branch := vgb.2.2 }

/-- The structured manifest document built in `create_dir`
(src/main.rs lines 83-94). -/
def cargoConfigOf (crate_name module_name pyo3_version : String) : CargoConfig :=
  { package := { name := crate_name, version := "0.1.0", edition := "2018" }
    lib := { name := module_name, crate_type := ["cdylib"] }
    dependencies := [("pyo3", pyo3Dependency pyo3_version)] }

/-- TOML quoting of a plain string value (no escaping is needed for the
strings this program serializes). -/
def quoteToml (s : String) : String := "\"" ++ s ++ "\""

/-- TOML rendering of an array of strings. -/
def tomlStrArray (xs : List String) : String :=
  "[" ++ String.intercalate ", " (xs.map quoteToml) ++ "]"

/-- Models `toml::to_string` (src/main.rs line 99) on the fixed document
shape above: sections in field order, dependency tables keyed by name,
`None` optional fields omitted. -/
def tomlToString (c : CargoConfig) : String :=
  "[package]\n"
    ++ "name = " ++ quoteToml c.package.name ++ "\n"
    ++ "version = " ++ quoteToml c.package.version ++ "\n"
    ++ "edition = " ++ quoteToml c.package.edition ++ "\n"
    ++ "\n[lib]\n"
    ++ "name = " ++ quoteToml c.lib.name ++ "\n"
    ++ "crate-type = " ++ tomlStrArray c.lib.crate_type ++ "\n"
    ++ String.join (c.dependencies.map (fun kd =>
      "\n[dependencies." ++ kd.1 ++ "]\n"
        ++ "version = " ++ quoteToml kd.2.version ++ "\n"
        ++ "features = " ++ tomlStrArray kd.2.features ++ "\n"
        ++ (match kd.2.git with
            | some g => "git = " ++ quoteToml g ++ "\n"
            | none => "")
        ++ (match kd.2.branch with
            | some b => "branch = " ++ quoteToml b ++ "\n"
            | none => "")))

/-- The full manifest text written to `Cargo.toml`
(src/main.rs lines 99-100): the serialized structured document followed by
a second `[dependencies]` heading and the raw dependency lines joined by
newlines. -/
def manifestContents (crate_name module_name pyo3_version : String)
    (deps : List String) : String :=
  tomlToString (cargoConfigOf crate_name module_name pyo3_version)
    ++ "\n[dependencies]\n" ++ String.intercalate "\n" deps

/-- The fixed `.cargo/config.toml` content (src/main.rs lines 107-121),
a constant raw string in the source. -/
def configTomlContent : String :=
  "\n[target.x86_64-apple-darwin]\nrustflags = [\n  \"-C\", \"link-arg=-undefined\",\n  \"-C\", \"link-arg=dynamic_lookup\",\n]\n\n[target.aarch64-apple-darwin]\nrustflags = [\n  \"-C\", \"link-arg=-undefined\",\n  \"-C\", \"link-arg=dynamic_lookup\",\n]"

/-! ## Filesystem model -/

/-- A filesystem: an association list from path strings to file contents.
Later writes are consed to the front, shadowing older entries. -/
abbrev FS := List (String × String)

/-- `fs::read`/`fs::read_to_string` on the model: the most recent content
written at the path, if any. -/
def fsRead (path : String) (fs : FS) : Option String :=
  (fs.find? (fun e => e.1 = path)).map (fun e => e.2)

/-- `fs::write` on the model. -/
def fsWrite (path contents : String) (fs : FS) : FS :=
  (path, contents) :: fs

/-- `fs::copy` on the model: fails (returns `none`) when the source file
does not exist. `fs::copy` opens the destination with truncation before
streaming from the source, so copying a path onto itself succeeds but
leaves the file empty; otherwise the source's bytes land at the
destination. -/
def fsCopy (src dst : String) (fs : FS) : Option FS :=
  (fsRead src fs).map (fun c => fsWrite dst (if dst = src then "" else c) fs)

/-- The error kinds a run can fail with; `ioError` carries the OS error
message of the failing operation (a Rust `io::Error` from `fs::copy` does
not name the path it failed on). -/
inductive RunError where
  | ioError (msg : String)
  | buildError (msg : String)
deriving DecidableEq, Repr

/-- The message of the `io::Error` a copy from a missing source fails
with. -/
def fileNotFoundMsg : String := "No such file or directory (os error 2)"

/-! ## Workspace materializer (`create_dir`, src/main.rs lines 54-124) -/

/-- `create_dir` (src/main.rs lines 54-124): write the manifest to
`Cargo.toml`, copy the input file to `src/lib.rs`, write the fixed linker
configuration to `.cargo/config.toml` (directory creation is a no-op on
the file model). -/
def create_dir (cargo_dir input crate_name module_name : String)
    (deps : List String) (pyo3_version : String) (fs : FS) :
    Except RunError FS :=
  let config_contents := manifestContents crate_name module_name pyo3_version deps
  let fs1 := fsWrite (cargo_dir ++ "/Cargo.toml") config_contents fs
  match fsCopy input (cargo_dir ++ "/src/lib.rs") fs1 with
  | none => .error (.ioError fileNotFoundMsg)
  | some fs2 =>
    .ok (fsWrite (cargo_dir ++ "/.cargo/config.toml") configTomlContent fs2)

/-! ## Build invoker and artifact locator (src/main.rs lines 157-188) -/

/-- The default pyo3 mode selector:
`matches.value_of("pyo3").unwrap_or("*")` (src/main.rs line 163). -/
def pyo3VersionArg (cliValue : Option String) : String :=
  cliValue.getD "*"

/-- An external command invocation: program, argument list and working
directory. -/
structure Cmd where
  program : String
  args : List String
  cwd : String
deriving DecidableEq, Repr

/-- The argument list for cargo (src/main.rs lines 167-170): `["build"]`,
with `"--release"` pushed when the release flag is set. -/
def cargoArgs (is_release : Bool) : List String :=
  let args := ["build"]
  if is_release then args ++ ["--release"] else args

/-- The cargo invocation (src/main.rs lines 171-176): the `cargo` program
with the computed arguments, run with the workspace as working
directory. -/
def buildCommand (cargo_dir : String) (is_release : Bool) : Cmd :=
  { program := "cargo", args := cargoArgs is_release, cwd := cargo_dir }

/-- The expected artifact path (src/main.rs lines 182-184):
`<workspace>/target/<profile>/lib<module_name>.<dll_extension>`. -/
def lib_src_path (cargo_dir module_name dll_extension : String)
    (is_release : Bool) : String :=
  cargo_dir ++ "/target/" ++ (if is_release then "release" else "debug")
    ++ "/lib" ++ module_name ++ "." ++ dll_extension

/-- The artifact destination (src/main.rs line 185): `<module_name>.so`,
relative to the current working directory. -/
def lib_dst_path (module_name : String) : String :=
  module_name ++ ".so"

/-- The tail of `run` after `create_dir` (src/main.rs lines 178-188):
fail with a `BuildError` when cargo exited non-zero, otherwise copy the
expected artifact to `<module_name>.so`. When the artifact does not exist
the bare `fs::copy(...)?` of line 186 propagates the OS file-not-found
error, whose message does not mention the path. -/
def buildAndCopy (cargo_dir module_name dll_extension : String)
    (is_release : Bool) (buildSucceeded : Bool) (fs : FS) :
    Except RunError FS :=
  if !buildSucceeded then .error (.buildError "cargo failed")
  else
    match fsCopy (lib_src_path cargo_dir module_name dll_extension is_release)
        (lib_dst_path module_name) fs with
    | none => .error (.ioError fileNotFoundMsg)
    | some fs' => .ok fs'

/-- Counts the occurrences (at distinct start positions) of a pattern in a
character sequence. -/
def countOccur (pat : List Char) : List Char → Nat
  | [] => if pat = [] then 1 else 0
  | c :: cs =>
    (if pat.isPrefixOf (c :: cs) then 1 else 0) + countOccur pat cs

/-! ## Helper lemmas -/

instance {ε α : Type} [DecidableEq ε] [DecidableEq α] :
    DecidableEq (Except ε α)
  | .error e, .error f =>
    if h : e = f then .isTrue (by rw [h])
    else .isFalse (fun hh => by cases hh; exact h rfl)
  | .error _, .ok _ => .isFalse (fun hh => by cases hh)
  | .ok _, .error _ => .isFalse (fun hh => by cases hh)
  | .ok a, .ok b =>
    if h : a = b then .isTrue (by rw [h])
    else .isFalse (fun hh => by cases hh; exact h rfl)

theorem fsRead_write_same (p c : String) (fs : FS) :
    fsRead p (fsWrite p c fs) = some c := by
  simp [fsRead, fsWrite, List.find?]

theorem fsRead_write_ne (p q c : String) (fs : FS) (h : p ≠ q) :
    fsRead p (fsWrite q c fs) = fsRead p fs := by
  simp only [fsRead, fsWrite, List.find?]
  have hq : (q = p) = False := by
    simp only [eq_iff_iff, iff_false]
    exact fun hqp => h hqp.symm
  simp [hq]

theorem append_right_ne (s a b : String) (h : a ≠ b) : s ++ a ≠ s ++ b := by
  intro he
  apply h
  apply String.ext
  have hd : s.data ++ a.data = s.data ++ b.data := by
    rw [← String.data_append, ← String.data_append, he]
  exact List.append_cancel_left hd

theorem lib_dst_ne_src (cargo_dir module_name ext : String)
    (is_release : Bool) :
    lib_dst_path module_name ≠ lib_src_path cargo_dir module_name ext is_release := by
  intro he
  have hd := congrArg (fun s => s.data.length) he
  simp only [lib_dst_path, lib_src_path, String.data_append,
    List.length_append] at hd
  cases is_release <;>
    simp only [List.length_cons, List.length_nil] at hd <;>
    omega

theorem collectDepsLines_eq (pre : List (List Char)) (mid : List Char)
    (rest : List (List Char))
    (hpre : ∀ l ∈ pre, isDirective l = true)
    (hmid : isDirective mid = false) :
    collectDepsLines (pre ++ mid :: rest) = pre.map (List.drop 3) := by
  induction pre with
  | nil => simp [collectDepsLines, hmid]
  | cons l ls ih =>
    have hl := hpre l (List.mem_cons_self _ _)
    have ihh := ih (fun x hx => hpre x (List.mem_cons_of_mem _ hx))
    simp [collectDepsLines, hl, ihh]

/-! ## Claim theorems -/

set_option maxRecDepth 20000

/-- C1: for an input whose text has N contiguous leading lines starting
with the three-character marker `"// "` followed by a non-qualifying line,
`collect_deps` returns exactly those N lines in order, each with its first
three characters removed, and nothing at or after the first non-qualifying
line, even if a later line also starts with `"// "`. -/
theorem collect_deps_spec (src : String) (pre : List (List Char))
    (mid : List Char) (rest : List (List Char))
    (hsplit : rustLines src.data = pre ++ mid :: rest)
    (hpre : ∀ l ∈ pre, isDirective l = true)
    (hmid : isDirective mid = false) :
    collect_deps src = pre.map (fun l => String.mk (l.drop 3)) := by
  unfold collect_deps
  rw [hsplit, collectDepsLines_eq pre mid rest hpre hmid, List.map_map]
  rfl

/-- Witness for C1 at a concrete input with two directive lines, a code
line, and a later line that matches the marker but is ignored. -/
theorem collect_deps_spec_witness :
    collect_deps "// a = \"1.0\"\n// b = \"2.0\"\nfn main()\n// later"
      = ["a = \"1.0\"", "b = \"2.0\""] :=
  (collect_deps_spec _
    ["// a = \"1.0\"".data, "// b = \"2.0\"".data]
    "fn main()".data ["// later".data]
    (by decide) (by decide) (by decide)).trans (by decide)

/-- C5: the derived module name is the crate name with every hyphen
replaced by an underscore and every other character unchanged. -/
theorem module_name_of_spec (s : String) :
    (module_name_of s).data.length = s.data.length ∧
    (∀ i : Nat, (module_name_of s).data[i]? =
      (s.data[i]?).map (fun c => if c = '-' then '_' else c)) ∧
    (∀ c ∈ (module_name_of s).data, c ≠ '-') := by
  refine ⟨by simp [module_name_of], fun i => by simp [module_name_of], ?_⟩
  intro c hc
  simp only [module_name_of, List.mem_map] at hc
  obtain ⟨a, -, rfl⟩ := hc
  by_cases ha : a = '-' <;> simp [ha]

/-- C2: a non-`"github"` selector becomes the pyo3 version with no git and
no branch field; the `"github"` selector becomes version `"*"` with the
fixed repository URL and branch `"main"`. -/
theorem pyo3_dependency_spec (v : String) :
    (v ≠ "github" →
      pyo3Dependency v =
        ⟨v, ["extension-module"], none, none⟩) ∧
    (v = "github" →
      pyo3Dependency v =
        ⟨"*", ["extension-module"],
          some "https://github.com/PyO3/pyo3", some "main"⟩) := by
  constructor
  · intro h; simp [pyo3Dependency, h]
  · intro h; subst h; rfl

/-- Witness for C2 at the selectors `"0.15"` and `"github"`. -/
theorem pyo3_dependency_spec_witness :
    pyo3Dependency "0.15" = ⟨"0.15", ["extension-module"], none, none⟩ ∧
    pyo3Dependency "github" =
      ⟨"*", ["extension-module"],
        some "https://github.com/PyO3/pyo3", some "main"⟩ :=
  ⟨(pyo3_dependency_spec "0.15").1 (by decide),
   (pyo3_dependency_spec "github").2 rfl⟩

/-- C10: with no pyo3 flag on the command line the selector defaults to
`"*"`, so the managed dependency has wildcard version and no git or branch
field. -/
theorem pyo3_default_spec :
    pyo3VersionArg none = "*" ∧
    pyo3Dependency (pyo3VersionArg none) =
      ⟨"*", ["extension-module"], none, none⟩ :=
  ⟨rfl, by decide⟩

/-- C3: on a successful materialization the manifest written to
`Cargo.toml` is the TOML serialization of the structured document followed
by a second `[dependencies]` heading and the raw dependency strings joined
by newlines, verbatim and in order. -/
theorem manifest_layout_spec (cargo_dir input crate_name module_name : String)
    (deps : List String) (v : String) (fs fs' : FS)
    (h : create_dir cargo_dir input crate_name module_name deps v fs = .ok fs') :
    fsRead (cargo_dir ++ "/Cargo.toml") fs' =
      some (tomlToString (cargoConfigOf crate_name module_name v)
        ++ "\n[dependencies]\n" ++ String.intercalate "\n" deps) := by
  simp only [create_dir, fsCopy] at h
  cases hr : fsRead input (fsWrite (cargo_dir ++ "/Cargo.toml")
      (manifestContents crate_name module_name v deps) fs) with
  | none => rw [hr] at h; simp at h
  | some c =>
    rw [hr] at h
    simp only [Option.map_some'] at h
    cases h
    rw [fsRead_write_ne _ _ _ _ (append_right_ne _ _ _ (by decide)),
      fsRead_write_ne _ _ _ _ (append_right_ne _ _ _ (by decide)),
      fsRead_write_same]
    rfl

/-- Witness for C3 at a concrete materialization with one raw dependency
line. -/
theorem manifest_layout_spec_witness :
    fsRead ("/tmp/foo-bar" ++ "/Cargo.toml")
      ((create_dir "/tmp/foo-bar" "input.rs" "foo-bar" "foo_bar"
          ["depA = \"1.0\""] "*" [("input.rs", "fn main()")]).toOption.getD [])
      = some (tomlToString (cargoConfigOf "foo-bar" "foo_bar" "*")
        ++ "\n[dependencies]\n" ++ String.intercalate "\n" ["depA = \"1.0\""]) :=
  manifest_layout_spec "/tmp/foo-bar" "input.rs" "foo-bar" "foo_bar"
    ["depA = \"1.0\""] "*" [("input.rs", "fn main()")] _ (by decide)

/-- C4: the expected artifact path is
`<workspace>/target/<profile>/lib<module_name>.<extension>` with profile
`release` exactly when the release flag is set, and the artifact is copied
to `<module_name>.so` (cwd-relative, fixed `.so` suffix independent of the
platform extension). -/
theorem artifact_locator_spec (cargo_dir module_name ext : String)
    (is_release : Bool) (fs : FS) (contents : String)
    (h : fsRead (lib_src_path cargo_dir module_name ext is_release) fs
      = some contents) :
    lib_src_path cargo_dir module_name ext is_release =
      cargo_dir ++ "/target/" ++ (if is_release then "release" else "debug")
        ++ "/lib" ++ module_name ++ "." ++ ext ∧
    buildAndCopy cargo_dir module_name ext is_release true fs =
      .ok (fsWrite (module_name ++ ".so") contents fs) := by
  refine ⟨rfl, ?_⟩
  have hne : ¬(module_name ++ ".so"
      = lib_src_path cargo_dir module_name ext is_release) :=
    lib_dst_ne_src cargo_dir module_name ext is_release
  simp [buildAndCopy, fsCopy, h, lib_dst_path, hne]

/-- Witness for C4: a release build whose artifact exists is copied to
`foo_bar.so`. -/
theorem artifact_locator_spec_witness :
    lib_src_path "/tmp/foo-bar" "foo_bar" "dylib" true =
      "/tmp/foo-bar" ++ "/target/" ++ (if true then "release" else "debug")
        ++ "/lib" ++ "foo_bar" ++ "." ++ "dylib" ∧
    buildAndCopy "/tmp/foo-bar" "foo_bar" "dylib" true true
        [("/tmp/foo-bar/target/release/libfoo_bar.dylib", "binary")] =
      .ok (fsWrite ("foo_bar" ++ ".so") "binary"
        [("/tmp/foo-bar/target/release/libfoo_bar.dylib", "binary")]) :=
  artifact_locator_spec "/tmp/foo-bar" "foo_bar" "dylib" true
    [("/tmp/foo-bar/target/release/libfoo_bar.dylib", "binary")] "binary"
    (by decide)

/-- C6: the build invoker runs `cargo` with arguments `["build"]` (plus
`"--release"` exactly when the release flag is set) in the workspace
directory, and a non-zero exit fails the run with a `BuildError` without
ever reaching the artifact copy, whatever the filesystem holds. -/
theorem build_invoker_spec (cargo_dir : String) (is_release : Bool) :
    (buildCommand cargo_dir is_release).program = "cargo" ∧
    (buildCommand cargo_dir is_release).args =
      (if is_release then ["build", "--release"] else ["build"]) ∧
    (buildCommand cargo_dir is_release).cwd = cargo_dir ∧
    (∀ module_name ext : String, ∀ fs : FS,
      buildAndCopy cargo_dir module_name ext is_release false fs =
        .error (.buildError "cargo failed")) := by
  refine ⟨rfl, ?_, rfl, fun _ _ _ => rfl⟩
  cases is_release <;> rfl

/-- Counterexample to C8 as stated: with a successful build and no
artifact on disk, the run fails with the bare OS file-not-found error
propagated by the plain `fs::copy(...)?` of line 186, and the missing
artifact path `/tmp/foo-bar/target/debug/libfoo_bar.so` occurs nowhere in
that error, so the error does not name the missing path. -/
theorem artifact_missing_counterexample :
    buildAndCopy "/tmp/foo-bar" "foo_bar" "so" false true [] =
      .error (.ioError fileNotFoundMsg) ∧
    countOccur (lib_src_path "/tmp/foo-bar" "foo_bar" "so" false).data
      fileNotFoundMsg.data = 0 := by
  exact ⟨by decide, by decide⟩

/-- C8 (amended): when the build exits 0 but the expected artifact path is
missing, the run fails with an `IoError` (the bare file-not-found error,
which does not name the path) and never reports success. -/
theorem artifact_missing_spec (cargo_dir module_name ext : String)
    (is_release : Bool) (fs : FS)
    (h : fsRead (lib_src_path cargo_dir module_name ext is_release) fs = none) :
    buildAndCopy cargo_dir module_name ext is_release true fs =
      .error (.ioError fileNotFoundMsg) ∧
    ∀ fs' : FS, buildAndCopy cargo_dir module_name ext is_release true fs
      ≠ .ok fs' := by
  have he : buildAndCopy cargo_dir module_name ext is_release true fs =
      .error (.ioError fileNotFoundMsg) := by
    simp [buildAndCopy, fsCopy, h]
  exact ⟨he, fun fs' hok => by rw [he] at hok; cases hok⟩

/-- Witness for the amended C8: a successful build over an empty
filesystem fails with the file-not-found `IoError` and never reports
success. -/
theorem artifact_missing_spec_witness :
    buildAndCopy "/tmp/foo-bar" "foo_bar" "so" false true [] =
      .error (.ioError fileNotFoundMsg) ∧
    ∀ fs' : FS, buildAndCopy "/tmp/foo-bar" "foo_bar" "so" false true []
      ≠ .ok fs' :=
  artifact_missing_spec "/tmp/foo-bar" "foo_bar" "so" false [] (by decide)

/-- C9: every successful materialization writes `.cargo/config.toml` with
a fixed content, independent of all inputs, that names exactly the two
apple-darwin target triples, each followed by the dynamic-lookup linker
flags (the flag block occurs exactly twice, once per triple). -/
theorem linker_config_spec (cargo_dir input crate_name module_name : String)
    (deps : List String) (v : String) (fs fs' : FS)
    (h : create_dir cargo_dir input crate_name module_name deps v fs = .ok fs') :
    fsRead (cargo_dir ++ "/.cargo/config.toml") fs' = some configTomlContent ∧
    countOccur "[target.".data configTomlContent.data = 2 ∧
    countOccur "[target.x86_64-apple-darwin]".data configTomlContent.data = 1 ∧
    countOccur "[target.aarch64-apple-darwin]".data configTomlContent.data = 1 ∧
    countOccur
      "rustflags = [\n  \"-C\", \"link-arg=-undefined\",\n  \"-C\", \"link-arg=dynamic_lookup\",\n]".data
      configTomlContent.data = 2 := by
  refine ⟨?_, by decide, by decide, by decide, by decide⟩
  simp only [create_dir, fsCopy] at h
  cases hr : fsRead input (fsWrite (cargo_dir ++ "/Cargo.toml")
      (manifestContents crate_name module_name v deps) fs) with
  | none => rw [hr] at h; simp at h
  | some c =>
    rw [hr] at h
    simp only [Option.map_some'] at h
    cases h
    exact fsRead_write_same _ _ _

/-- Witness for C9 at a concrete materialization. -/
theorem linker_config_spec_witness :
    fsRead ("/tmp/foo-bar" ++ "/.cargo/config.toml")
      ((create_dir "/tmp/foo-bar" "input.rs" "foo-bar" "foo_bar" [] "*"
          [("input.rs", "fn main()")]).toOption.getD [])
      = some configTomlContent ∧
    countOccur "[target.".data configTomlContent.data = 2 ∧
    countOccur "[target.x86_64-apple-darwin]".data configTomlContent.data = 1 ∧
    countOccur "[target.aarch64-apple-darwin]".data configTomlContent.data = 1 ∧
    countOccur
      "rustflags = [\n  \"-C\", \"link-arg=-undefined\",\n  \"-C\", \"link-arg=dynamic_lookup\",\n]".data
      configTomlContent.data = 2 :=
  linker_config_spec "/tmp/foo-bar" "input.rs" "foo-bar" "foo_bar" [] "*"
    [("input.rs", "fn main()")] _ (by decide)

/-- C7 (amended): when the input path is neither the workspace manifest
path `<workspace>/Cargo.toml` (which `create_dir` overwrites before
copying) nor the module-entry path `<workspace>/src/lib.rs` (onto which
the copy would truncate the input), a successful materialization leaves
`<workspace>/src/lib.rs` holding exactly the original input bytes. -/
theorem roundtrip_amended (cargo_dir input crate_name module_name : String)
    (deps : List String) (v : String) (fs fs' : FS) (orig : String)
    (hne : input ≠ cargo_dir ++ "/Cargo.toml")
    (hne' : input ≠ cargo_dir ++ "/src/lib.rs")
    (horig : fsRead input fs = some orig)
    (h : create_dir cargo_dir input crate_name module_name deps v fs = .ok fs') :
    fsRead (cargo_dir ++ "/src/lib.rs") fs' = some orig := by
  simp only [create_dir, fsCopy] at h
  rw [fsRead_write_ne _ _ _ _ hne, horig] at h
  simp only [Option.map_some'] at h
  rw [if_neg (Ne.symm hne')] at h
  cases h
  rw [fsRead_write_ne _ _ _ _ (append_right_ne _ _ _ (by decide)),
    fsRead_write_same]

/-- Counterexample to C7 as stated, at two inputs. First, the input file
`/tmp/Cargo/Cargo.toml` (file stem `Cargo`, so the workspace is
`/tmp/Cargo` and the input aliases the manifest path): materialization
succeeds but `src/lib.rs` reads back as the freshly written manifest, not
the original bytes. Second, the input file `/tmp/lib/src/lib.rs` (file
stem `lib`, so the input aliases the copy's own destination): the
self-copy truncates the file, and the read-back is empty rather than the
original bytes. -/
theorem roundtrip_counterexample :
    ((create_dir "/tmp/Cargo" "/tmp/Cargo/Cargo.toml" "Cargo" "Cargo" [] "*"
        [("/tmp/Cargo/Cargo.toml", "original bytes")]).isOk = true ∧
      ((create_dir "/tmp/Cargo" "/tmp/Cargo/Cargo.toml" "Cargo" "Cargo" [] "*"
          [("/tmp/Cargo/Cargo.toml", "original bytes")]).toOption.bind
        (fun fs' => fsRead ("/tmp/Cargo" ++ "/src/lib.rs") fs'))
        ≠ some "original bytes") ∧
    ((create_dir "/tmp/lib" "/tmp/lib/src/lib.rs" "lib" "lib" [] "*"
        [("/tmp/lib/src/lib.rs", "original bytes")]).isOk = true ∧
      ((create_dir "/tmp/lib" "/tmp/lib/src/lib.rs" "lib" "lib" [] "*"
          [("/tmp/lib/src/lib.rs", "original bytes")]).toOption.bind
        (fun fs' => fsRead ("/tmp/lib" ++ "/src/lib.rs") fs'))
        = some "") := by
  exact ⟨⟨by decide, by decide⟩, ⟨by decide, by decide⟩⟩

/-- Witness for the amended C7 at a concrete input distinct from both
excluded paths. -/
theorem roundtrip_amended_witness :
    fsRead ("/tmp/foo-bar" ++ "/src/lib.rs")
      ((create_dir "/tmp/foo-bar" "input.rs" "foo-bar" "foo_bar" [] "*"
          [("input.rs", "fn main()")]).toOption.getD [])
      = some "fn main()" :=
  roundtrip_amended "/tmp/foo-bar" "input.rs" "foo-bar" "foo_bar" [] "*"
    [("input.rs", "fn main()")] _ "fn main()"
    (by decide) (by decide) (by decide) (by decide)

end SinglePyo3
